import Mathlib

/-!
Shallow embedding of the duplex chat session core of the l2cap-client /
l2cap-server programs (src/l2cap-client.c, src/l2cap-server.c).

The two programs share the same core: a global quit flag guarded by a mutex
(`FLAG_QUIT`, `get_flag_quit`, `set_flag_quit`), a receiver thread
(`thread_receiver`) that loops reading frames from the socket and printing
them, a sender thread (`thread_sender`) that loops reading stdin lines and
writing them to the socket, and a `main` that starts both threads, joins
both, and then closes the socket.

Modelling choices:
- bytes are `Nat`; a buffer or frame is a `List Nat`;
- the mutex makes each flag access atomic, so the flag is modelled as a
  plain `Int` value threaded through the loop-body step functions, and a
  sequence of concurrent flag operations is a list of atomic calls;
- each thread's loop body becomes a step function on an explicit state
  record; the results of the environment-dependent system calls (`read`'s
  byte count and buffer content, `write`'s return status, the bytes
  available on stdin) are inputs to the step;
- C NUL-terminated string reads of the zero-initialised 673-byte buffers
  (`strcmp`, `printf "%s"`, `strlen`) are modelled by taking bytes up to
  the first 0.
-/

namespace L2capChat

/-- The termination sentinel: the ASCII bytes of the literal `bye`. -/
def bye : List Nat := [98, 121, 101]

/-- Reading a zero-initialised buffer as a C string: the bytes before the
first NUL.  `strcmp(buf, "bye") == 0` becomes `cstring buf = bye`, and
`printf("%s", buf)` prints `cstring buf`. -/
def cstring (buf : List Nat) : List Nat := buf.takeWhile (fun c => c != 0)

/-- `get_flag_quit` from the source: under the mutex it computes
`FLAG_QUIT == 1` and returns that. -/
def get_flag_quit (flag : Int) : Bool := flag == 1

/-- `set_flag_quit` from the source: under the mutex it stores its `status`
argument into `FLAG_QUIT`, unconditionally. -/
def set_flag_quit (status : Int) : Int → Int := fun _ => status

/-- A sequence of `set_flag_quit` calls applied atomically (the mutex
serialises them), starting from flag value `init`. -/
def runCalls (init : Int) (calls : List Int) : Int :=
  calls.foldl (fun f c => set_flag_quit c f) init

/-- `max_send` from `thread_sender`: the bound passed to `fgets`. -/
def max_send : Nat := 672

/-- The bytes `fgets(buf, n+1, stdin)` stores from the pending input: at
most `n` bytes, stopping after the first newline.  On empty input (EOF)
nothing is stored, so the zeroed buffer reads as the empty string. -/
def fgetsTake : Nat → List Nat → List Nat
  | 0, _ => []
  | _ + 1, [] => []
  | n + 1, c :: rest => if c = 10 then [10] else c :: fgetsTake n rest

/-- The bytes actually written by `thread_sender` from the fgets result:
`send_msg[strcspn(send_msg, "\n\r")] = 0` truncates the buffer at the
first LF or CR (or leaves it at its existing NUL), and the write length is
`strlen(send_msg)`; the net effect is the longest prefix free of NUL, LF
and CR. -/
def strip_newline (s : List Nat) : List Nat :=
  s.takeWhile (fun c => c != 0 && c != 10 && c != 13)

/-- Observable state of `thread_receiver` (the Inbound Pump): the shared
quit flag, the number of `read` calls issued, the C-string contents
forwarded to the output sink by `printf`, whether `pthread_cancel` was
issued against the sender thread, and whether the loop has exited. -/
structure ReceiverState where
  flag : Int
  reads : Nat
  printed : List (List Nat)
  canceled_sender : Bool
  exited : Bool
  deriving DecidableEq

/-- One iteration of the `thread_receiver` loop.  `bytes_read` is the
value returned by `read` and `frame` the bytes it stored into the zeroed
673-byte buffer (none on error or end of stream). -/
def thread_receiver_step (st : ReceiverState) (bytes_read : Int)
    (frame : List Nat) : ReceiverState :=
  if st.exited then st
  else if get_flag_quit st.flag then { st with exited := true }
  else
    let buf := cstring frame
    let reads := st.reads + 1
    let quit0 : Bool := buf == bye
    let printed := if 0 < bytes_read then st.printed ++ [buf] else st.printed
    let quit : Bool := if 0 < bytes_read then quit0 else true
    if quit then
      { flag := set_flag_quit 1 st.flag, reads := reads, printed := printed,
        canceled_sender := true, exited := true }
    else
      { st with reads := reads, printed := printed }

/-- Observable state of `thread_sender` (the Outbound Pump): the shared
quit flag, the pending operator input bytes, the frames written to the
socket, whether `pthread_cancel` was issued against the receiver thread,
the number of `perror` reports, and whether the loop has exited. -/
structure SenderState where
  flag : Int
  input : List Nat
  sent : List (List Nat)
  canceled_receiver : Bool
  errors : Nat
  exited : Bool
  deriving DecidableEq

/-- One iteration of the `thread_sender` loop.  `wstatus` is the value
returned by `write`.  Note the source's control flow: the failure branch
sets `quit = 1` after `perror`, but the next statement
`quit = strcmp(send_msg, "bye") == 0` overwrites `quit` unconditionally,
so only the sentinel comparison decides the loop exit. -/
def thread_sender_step (st : SenderState) (wstatus : Int) : SenderState :=
  if st.exited then st
  else if get_flag_quit st.flag then { st with exited := true }
  else
    let line := fgetsTake (max_send - 1) st.input
    let remaining := st.input.drop line.length
    let send_msg := strip_newline line
    let sent := st.sent ++ [send_msg]
    let errors := if wstatus < 0 then st.errors + 1 else st.errors
    let _quit_on_failure : Bool := decide (wstatus < 0)
    let quit : Bool := send_msg == bye
    if quit then
      { flag := set_flag_quit 1 st.flag, input := remaining, sent := sent,
        canceled_receiver := true, errors := errors, exited := true }
    else
      { st with input := remaining, sent := sent, errors := errors }

/-- Iterated sender loop: one `thread_sender_step` per element of `ws`,
the list of successive `write` return statuses. -/
def sendIter (st : SenderState) (ws : List Int) : SenderState :=
  ws.foldl thread_sender_step st

/-- The session-lifecycle events executed by `main` (the Session Runner),
in program order, once the connection is established. -/
inductive RunnerEvent
  | createReceiver
  | createSender
  | joinReceiver
  | joinSender
  | closeChannel
  | closeListen
  deriving DecidableEq

/-- Program-order event trace of the client `main` after a successful
`connect`: create both threads, join both, then `close(s)`. -/
def runnerTraceClient : List RunnerEvent :=
  [.createReceiver, .createSender, .joinReceiver, .joinSender, .closeChannel]

/-- Program-order event trace of the server `main` after `accept`: create
both threads, join both, `close(client)` (the Channel), then `close(s)`
(the listening socket). -/
def runnerTraceServer : List RunnerEvent :=
  [.createReceiver, .createSender, .joinReceiver, .joinSender,
   .closeChannel, .closeListen]

end L2capChat

namespace L2capChat

/-! ### Helper lemmas -/

/-- A nonempty sequence of `set_flag_quit` calls that all pass `1` leaves
the flag at `1` whatever the initial value. -/
theorem runCalls_all_ones (init : Int) (calls : List Int)
    (h : ∀ c ∈ calls, c = 1) (hne : calls ≠ []) : runCalls init calls = 1 := by
  induction calls generalizing init with
  | nil => exact absurd rfl hne
  | cons c cs ih =>
    cases cs with
    | nil =>
      have hc : c = 1 := h c (by simp)
      simp [runCalls, set_flag_quit, hc]
    | cons d ds =>
      have : runCalls c (d :: ds) = 1 :=
        ih c (fun x hx => h x (List.mem_cons_of_mem _ hx)) (by simp)
      simpa [runCalls, set_flag_quit] using this

/-- `fgets` on pending input `content ++ "\n" ++ rest` with room bound `n`
larger than the content consumes exactly the content and its newline. -/
theorem fgetsTake_line (content : List Nat) (rest : List Nat) (n : Nat)
    (hlen : content.length < n) (hnl : ∀ c ∈ content, c ≠ 10) :
    fgetsTake n (content ++ 10 :: rest) = content ++ [10] := by
  induction content generalizing n with
  | nil =>
    cases n with
    | zero => omega
    | succ m => simp [fgetsTake]
  | cons c cs ih =>
    cases n with
    | zero => omega
    | succ m =>
      have hc : c ≠ 10 := hnl c (by simp)
      simp only [List.cons_append, fgetsTake, if_neg hc]
      show c :: fgetsTake m (cs ++ 10 :: rest) = c :: (cs ++ [10])
      rw [ih m (by simpa using hlen) (fun x hx => hnl x (List.mem_cons_of_mem _ hx))]

/-- Stripping a line whose content contains no NUL, LF or CR removes
exactly the trailing newline. -/
theorem strip_newline_clean (content : List Nat)
    (hclean : ∀ c ∈ content, c ≠ 0 ∧ c ≠ 10 ∧ c ≠ 13) :
    strip_newline (content ++ [10]) = content := by
  induction content with
  | nil => simp [strip_newline]
  | cons c cs ih =>
    have hc := hclean c (by simp)
    simp only [strip_newline, List.cons_append, List.takeWhile]
    have : (c != 0 && c != 10 && c != 13) = true := by
      simp [hc.1, hc.2.1, hc.2.2]
    rw [this]
    show c :: List.takeWhile (fun c => c != 0 && c != 10 && c != 13) (cs ++ [10]) = c :: cs
    simp only [strip_newline] at ih
    rw [ih (fun x hx => hclean x (List.mem_cons_of_mem _ hx))]

/-- A sender iteration on exhausted input (fgets stores nothing, buffer
stays zeroed) with a non-negative write status: the pump writes one empty
frame and keeps running, with flag, errors and cancellation untouched. -/
theorem sender_step_eof (st : SenderState) (w : Int) (hw : 0 ≤ w)
    (hex : st.exited = false) (hflag : get_flag_quit st.flag = false)
    (hin : st.input = []) :
    (thread_sender_step st w).exited = false ∧
    (thread_sender_step st w).flag = st.flag ∧
    (thread_sender_step st w).input = [] ∧
    (thread_sender_step st w).sent = st.sent ++ [[]] ∧
    (thread_sender_step st w).errors = st.errors ∧
    (thread_sender_step st w).canceled_receiver = st.canceled_receiver := by
  have hnw : ¬ w < 0 := by omega
  simp [thread_sender_step, hex, hflag, hin, fgetsTake, strip_newline, max_send, bye, hnw]

/-! ### Claim theorems -/

/-- Claim C1: the claim says every negative write status is terminal for
the session.  The code contradicts it: in `thread_sender` the failure
branch sets `quit = 1` after `perror`, but the very next statement
`quit = strcmp(send_msg, "bye") == 0` overwrites `quit` unconditionally.
Evaluating the loop body at the failing input — operator line `hi`
(bytes 104 105 10) with `write` returning `-1` — the failure is reported
(`errors = 1`) yet the pump neither exits, nor sets the quit flag, nor
cancels the receiver; it keeps looping. -/
theorem sender_write_failure_not_terminal :
    (thread_sender_step ⟨0, [104, 105, 10], [], false, 0, false⟩ (-1)).errors = 1 ∧
    (thread_sender_step ⟨0, [104, 105, 10], [], false, 0, false⟩ (-1)).exited = false ∧
    (thread_sender_step ⟨0, [104, 105, 10], [], false, 0, false⟩ (-1)).flag = 0 ∧
    (thread_sender_step ⟨0, [104, 105, 10], [], false, 0, false⟩ (-1)).canceled_receiver = false ∧
    (thread_sender_step ⟨0, [104, 105, 10], [], false, 0, false⟩ (-1)).sent = [[104, 105]] := by
  decide

/-- Claim C2: for every sequence of `set_flag_quit` calls made by the
pumps (they all pass `1`), the flag observable through `get_flag_quit`
transitions from Running (`false` before any call) to Ending (`true` from
the first call on) exactly once, and a further `set_flag_quit 1` on the
already-Ending state is a no-op. -/
theorem flag_single_transition (calls : List Int) (h : ∀ c ∈ calls, c = 1)
    (i : Nat) (hi : 1 ≤ i) (hle : i ≤ calls.length) :
    get_flag_quit (runCalls 0 (calls.take i)) = true ∧
    set_flag_quit 1 (runCalls 0 (calls.take i)) = runCalls 0 (calls.take i) ∧
    get_flag_quit (runCalls 0 (calls.take 0)) = false := by
  have hones : ∀ c ∈ calls.take i, c = 1 := fun c hc => h c (List.take_subset i calls hc)
  have hne : calls.take i ≠ [] := by
    have : (calls.take i).length = i := by
      rw [List.length_take]
      omega
    intro hnil
    rw [hnil] at this
    simp at this
    omega
  have h1 : runCalls 0 (calls.take i) = 1 := runCalls_all_ones 0 _ hones hne
  refine ⟨?_, ?_, ?_⟩
  · rw [h1]; rfl
  · rw [h1]; rfl
  · simp [runCalls, get_flag_quit]

/-- Witness for C2 at the concrete call sequence `[1, 1]`. -/
theorem flag_single_transition_witness :
    get_flag_quit (runCalls 0 (([1, 1] : List Int).take 2)) = true ∧
    set_flag_quit 1 (runCalls 0 (([1, 1] : List Int).take 2)) =
      runCalls 0 (([1, 1] : List Int).take 2) ∧
    get_flag_quit (runCalls 0 (([1, 1] : List Int).take 0)) = false :=
  flag_single_transition [1, 1] (by decide) 2 (by decide) (by decide)

/-- Claim C3: in a running receiver iteration, a read of zero or negative
length sets the quit flag, cancels the sender thread and exits the loop,
forwarding nothing to the output sink in that iteration. -/
theorem recv_error_terminates (st : ReceiverState) (bytes_read : Int)
    (frame : List Nat) (hex : st.exited = false)
    (hflag : get_flag_quit st.flag = false) (hbr : bytes_read ≤ 0) :
    (thread_receiver_step st bytes_read frame).exited = true ∧
    (thread_receiver_step st bytes_read frame).flag = 1 ∧
    (thread_receiver_step st bytes_read frame).canceled_sender = true ∧
    (thread_receiver_step st bytes_read frame).printed = st.printed := by
  have hnpos : ¬ (0 : Int) < bytes_read := by omega
  simp [thread_receiver_step, hex, hflag, hnpos, set_flag_quit]

/-- Witness for C3: a zero-length read in the initial receiver state. -/
theorem recv_error_terminates_witness :
    (thread_receiver_step ⟨0, 0, [], false, false⟩ 0 []).exited = true ∧
    (thread_receiver_step ⟨0, 0, [], false, false⟩ 0 []).flag = 1 ∧
    (thread_receiver_step ⟨0, 0, [], false, false⟩ 0 []).canceled_sender = true ∧
    (thread_receiver_step ⟨0, 0, [], false, false⟩ 0 []).printed = [] :=
  recv_error_terminates ⟨0, 0, [], false, false⟩ 0 [] rfl rfl (by decide)

/-- Counterexample to claim C4: the operator line `a\rb\n` (4 characters,
well under 672) is NOT transmitted with only its trailing newline and
carriage-return stripped.  `send_msg[strcspn(send_msg, "\n\r")] = 0`
truncates at the FIRST CR or LF, so the interior CR drops everything after
it: the code sends `a` (byte 97), not `a\rb` (bytes 97 13 98). -/
theorem sender_interior_cr_truncates :
    (thread_sender_step ⟨0, [97, 13, 98, 10], [], false, 0, false⟩ 0).sent = [[97]] ∧
    ([97] : List Nat) ≠ [97, 13, 98] := by
  decide

/-- Claim C4 as amended: an operator line whose content (before the
trailing newline) has at most 670 bytes and contains no NUL, LF or CR
bytes is transmitted as exactly one frame whose bytes equal the content
unchanged, and the line, including its newline, is consumed from the
input.  (670, not 672: `fgets(buf, 672, stdin)` stores at most 671 bytes,
so content plus newline must fit in 671.) -/
theorem sender_clean_line_one_frame (st : SenderState) (w : Int)
    (content rest : List Nat) (hlen : content.length ≤ 670)
    (hclean : ∀ c ∈ content, c ≠ 0 ∧ c ≠ 10 ∧ c ≠ 13)
    (hex : st.exited = false) (hflag : get_flag_quit st.flag = false)
    (hin : st.input = content ++ 10 :: rest) :
    (thread_sender_step st w).sent = st.sent ++ [content] ∧
    (thread_sender_step st w).input = rest := by
  have hline : fgetsTake (max_send - 1) st.input = content ++ [10] := by
    rw [hin]
    exact fgetsTake_line content rest (max_send - 1) (by simp [max_send]; omega)
      (fun c hc => (hclean c hc).2.1)
  have hstrip : strip_newline (content ++ [10]) = content := strip_newline_clean content hclean
  have hdrop : st.input.drop (content ++ [10]).length = rest := by
    rw [hin]
    have : content ++ 10 :: rest = (content ++ [10]) ++ rest := by simp
    rw [this, List.drop_left]
  unfold thread_sender_step
  rw [if_neg (by simp [hex]), if_neg (by simp [hflag])]
  simp only [hline, hstrip, hdrop]
  split <;> simp

/-- Witness for amended C4: the line `h\n` is sent as the single frame
`h`. -/
theorem sender_clean_line_one_frame_witness :
    (thread_sender_step ⟨0, [104] ++ 10 :: [], [], false, 0, false⟩ 1).sent = [] ++ [[104]] ∧
    (thread_sender_step ⟨0, [104] ++ 10 :: [], [], false, 0, false⟩ 1).input = [] :=
  sender_clean_line_one_frame ⟨0, [104] ++ 10 :: [], [], false, 0, false⟩ 1 [104] []
    (by decide) (by decide) rfl rfl rfl

/-- Counterexample to claim C5: receiving the frame `bye` and receiving a
zero-length read ARE distinguishable by downstream effect.  Both
terminate identically (flag set, sender canceled, loop exited), but the
`bye` frame is forwarded to the output sink (`bytes_read > 0` makes
`printf` run before the sentinel exit), while the zero-length read
forwards nothing. -/
theorem recv_bye_vs_eof_distinguishable :
    (thread_receiver_step ⟨0, 0, [], false, false⟩ 3 [98, 121, 101]).exited = true ∧
    (thread_receiver_step ⟨0, 0, [], false, false⟩ 0 []).exited = true ∧
    (thread_receiver_step ⟨0, 0, [], false, false⟩ 3 [98, 121, 101]).flag = 1 ∧
    (thread_receiver_step ⟨0, 0, [], false, false⟩ 0 []).flag = 1 ∧
    (thread_receiver_step ⟨0, 0, [], false, false⟩ 3 [98, 121, 101]).canceled_sender = true ∧
    (thread_receiver_step ⟨0, 0, [], false, false⟩ 0 []).canceled_sender = true ∧
    (thread_receiver_step ⟨0, 0, [], false, false⟩ 3 [98, 121, 101]).printed = [[98, 121, 101]] ∧
    (thread_receiver_step ⟨0, 0, [], false, false⟩ 0 []).printed = ([] : List (List Nat)) ∧
    ([[98, 121, 101]] : List (List Nat)) ≠ [] := by
  decide

/-- Claim C5 as amended: receiving the exact bytes `bye` and receiving a
zero-length read produce the same termination control effects in the
receiver — quit flag set, sender canceled, loop exited — but they differ
in downstream sink output: the `bye` frame is additionally forwarded to
the output sink before the exit, the zero-length read forwards nothing. -/
theorem recv_bye_eof_same_termination (st : ReceiverState)
    (hex : st.exited = false) (hflag : get_flag_quit st.flag = false) :
    ((thread_receiver_step st 3 bye).exited = true ∧
     (thread_receiver_step st 3 bye).flag = 1 ∧
     (thread_receiver_step st 3 bye).canceled_sender = true ∧
     (thread_receiver_step st 3 bye).printed = st.printed ++ [bye]) ∧
    ((thread_receiver_step st 0 []).exited = true ∧
     (thread_receiver_step st 0 []).flag = 1 ∧
     (thread_receiver_step st 0 []).canceled_sender = true ∧
     (thread_receiver_step st 0 []).printed = st.printed) := by
  constructor
  · simp [thread_receiver_step, hex, hflag, cstring, bye, set_flag_quit]
  · simp [thread_receiver_step, hex, hflag, cstring, bye, set_flag_quit]

/-- Witness for amended C5 in the initial receiver state. -/
theorem recv_bye_eof_same_termination_witness :
    ((thread_receiver_step ⟨0, 0, [], false, false⟩ 3 bye).exited = true ∧
     (thread_receiver_step ⟨0, 0, [], false, false⟩ 3 bye).flag = 1 ∧
     (thread_receiver_step ⟨0, 0, [], false, false⟩ 3 bye).canceled_sender = true ∧
     (thread_receiver_step ⟨0, 0, [], false, false⟩ 3 bye).printed = [] ++ [bye]) ∧
    ((thread_receiver_step ⟨0, 0, [], false, false⟩ 0 []).exited = true ∧
     (thread_receiver_step ⟨0, 0, [], false, false⟩ 0 []).flag = 1 ∧
     (thread_receiver_step ⟨0, 0, [], false, false⟩ 0 []).canceled_sender = true ∧
     (thread_receiver_step ⟨0, 0, [], false, false⟩ 0 []).printed = []) :=
  recv_bye_eof_same_termination ⟨0, 0, [], false, false⟩ rfl rfl

/-- Counterexample to claim C6: the positive-length frame
`98 121 101 0` (the bytes `bye` followed by a NUL, length 4) does not
exactly equal the three-byte sentinel `bye`, yet the receiver takes the
normal-termination path for it, because `strcmp(receive_msg_buf, "bye")`
only compares bytes up to the first NUL of the zero-filled buffer. -/
theorem recv_embedded_nul_sentinel :
    (thread_receiver_step ⟨0, 0, [], false, false⟩ 4 [98, 121, 101, 0]).exited = true ∧
    (thread_receiver_step ⟨0, 0, [], false, false⟩ 4 [98, 121, 101, 0]).canceled_sender = true ∧
    (thread_receiver_step ⟨0, 0, [], false, false⟩ 4 [98, 121, 101, 0]).flag = 1 ∧
    ([98, 121, 101, 0] : List Nat) ≠ [98, 121, 101] := by
  decide

/-- Claim C6 as amended: on a positive-length received frame, the
receiver takes the termination path iff the frame's bytes before its
first NUL (the C-string reading of the zero-filled buffer) equal `bye`;
any other positive-length frame is forwarded (as its C-string reading) to
the output sink and the loop continues with flag and cancellation state
untouched. -/
theorem recv_sentinel_cstring (st : ReceiverState) (bytes_read : Int)
    (frame : List Nat) (hex : st.exited = false)
    (hflag : get_flag_quit st.flag = false) (hbr : 0 < bytes_read) :
    ((thread_receiver_step st bytes_read frame).exited = true ↔ cstring frame = bye) ∧
    (cstring frame ≠ bye →
      (thread_receiver_step st bytes_read frame).printed = st.printed ++ [cstring frame] ∧
      (thread_receiver_step st bytes_read frame).flag = st.flag ∧
      (thread_receiver_step st bytes_read frame).canceled_sender = st.canceled_sender ∧
      (thread_receiver_step st bytes_read frame).exited = false) ∧
    (cstring frame = bye →
      (thread_receiver_step st bytes_read frame).flag = 1 ∧
      (thread_receiver_step st bytes_read frame).canceled_sender = true ∧
      (thread_receiver_step st bytes_read frame).printed = st.printed ++ [cstring frame]) := by
  by_cases hb : cstring frame = bye
  · refine ⟨?_, fun hneq => absurd hb hneq, fun _ => ?_⟩
    · simp [thread_receiver_step, hex, hflag, hbr, hb, set_flag_quit]
    · simp [thread_receiver_step, hex, hflag, hbr, hb, set_flag_quit]
  · refine ⟨?_, fun _ => ?_, fun heq => absurd heq hb⟩
    · simp [thread_receiver_step, hex, hflag, hbr, hb]
    · simp [thread_receiver_step, hex, hflag, hbr, hb]

/-- Witness for amended C6 at the two-byte frame `hi`. -/
theorem recv_sentinel_cstring_witness :
    ((thread_receiver_step ⟨0, 0, [], false, false⟩ 2 [104, 105]).exited = true ↔
      cstring [104, 105] = bye) ∧
    (cstring [104, 105] ≠ bye →
      (thread_receiver_step ⟨0, 0, [], false, false⟩ 2 [104, 105]).printed = [] ++ [cstring [104, 105]] ∧
      (thread_receiver_step ⟨0, 0, [], false, false⟩ 2 [104, 105]).flag = 0 ∧
      (thread_receiver_step ⟨0, 0, [], false, false⟩ 2 [104, 105]).canceled_sender = false ∧
      (thread_receiver_step ⟨0, 0, [], false, false⟩ 2 [104, 105]).exited = false) ∧
    (cstring [104, 105] = bye →
      (thread_receiver_step ⟨0, 0, [], false, false⟩ 2 [104, 105]).flag = 1 ∧
      (thread_receiver_step ⟨0, 0, [], false, false⟩ 2 [104, 105]).canceled_sender = true ∧
      (thread_receiver_step ⟨0, 0, [], false, false⟩ 2 [104, 105]).printed = [] ++ [cstring [104, 105]]) :=
  recv_sentinel_cstring ⟨0, 0, [], false, false⟩ 2 [104, 105] rfl rfl (by decide)

/-- Claim C7: in both the client and the server Session Runner, the close
of the Channel occurs exactly once in the post-connection program-order
trace of `main`, and it occurs strictly after both thread joins. -/
theorem runner_close_after_join :
    (runnerTraceClient.count RunnerEvent.closeChannel = 1 ∧
     runnerTraceClient.indexOf RunnerEvent.joinReceiver <
       runnerTraceClient.indexOf RunnerEvent.closeChannel ∧
     runnerTraceClient.indexOf RunnerEvent.joinSender <
       runnerTraceClient.indexOf RunnerEvent.closeChannel) ∧
    (runnerTraceServer.count RunnerEvent.closeChannel = 1 ∧
     runnerTraceServer.indexOf RunnerEvent.joinReceiver <
       runnerTraceServer.indexOf RunnerEvent.closeChannel ∧
     runnerTraceServer.indexOf RunnerEvent.joinSender <
       runnerTraceServer.indexOf RunnerEvent.closeChannel) := by
  decide

/-- Claim C8: a pump that observes `get_flag_quit` true at the top of an
iteration exits immediately — no stdin bytes consumed and no frame sent by
the sender, no `read` issued and nothing printed by the receiver — and a
pump that has exited stays exited and performs no further action at all. -/
theorem pump_stops_at_boundary :
    (∀ (st : SenderState) (w : Int), st.exited = false →
      get_flag_quit st.flag = true →
      (thread_sender_step st w).exited = true ∧
      (thread_sender_step st w).input = st.input ∧
      (thread_sender_step st w).sent = st.sent ∧
      (thread_sender_step st w).flag = st.flag) ∧
    (∀ (st : ReceiverState) (br : Int) (f : List Nat), st.exited = false →
      get_flag_quit st.flag = true →
      (thread_receiver_step st br f).exited = true ∧
      (thread_receiver_step st br f).reads = st.reads ∧
      (thread_receiver_step st br f).printed = st.printed) ∧
    (∀ (st : SenderState) (w : Int), st.exited = true →
      thread_sender_step st w = st) ∧
    (∀ (st : ReceiverState) (br : Int) (f : List Nat), st.exited = true →
      thread_receiver_step st br f = st) := by
  refine ⟨?_, ?_, ?_, ?_⟩
  · intro st w hex hflag
    simp [thread_sender_step, hex, hflag]
  · intro st br f hex hflag
    simp [thread_receiver_step, hex, hflag]
  · intro st w hex
    simp [thread_sender_step, hex]
  · intro st br f hex
    simp [thread_receiver_step, hex]

/-- Witness for C8: both pumps, flag already set, exit at the boundary. -/
theorem pump_stops_at_boundary_witness :
    (thread_sender_step ⟨1, [104], [], false, 0, false⟩ 0).exited = true ∧
    (thread_receiver_step ⟨1, 0, [], false, false⟩ 1 [104]).exited = true :=
  ⟨(pump_stops_at_boundary.1 ⟨1, [104], [], false, 0, false⟩ 0 rfl rfl).1,
   (pump_stops_at_boundary.2.1 ⟨1, 0, [], false, false⟩ 1 [104] rfl rfl).1⟩

/-- Claim C9: with stdin at end-of-file (no pending bytes; `fgets` stores
nothing, so the zeroed buffer is an empty message) and every zero-length
write returning a non-negative status, the sender runs any number of
further iterations without exiting: each one writes an empty frame, the
failure branch is never taken, the sentinel never matches, and flag and
cancellation state stay untouched until the sibling requests stop. -/
theorem sender_eof_loops (st : SenderState) (ws : List Int)
    (hws : ∀ w ∈ ws, 0 ≤ w) (hex : st.exited = false)
    (hflag : get_flag_quit st.flag = false) (hin : st.input = []) :
    (sendIter st ws).exited = false ∧
    (sendIter st ws).flag = st.flag ∧
    (sendIter st ws).input = [] ∧
    (sendIter st ws).sent = st.sent ++ List.replicate ws.length [] ∧
    (sendIter st ws).errors = st.errors ∧
    (sendIter st ws).canceled_receiver = st.canceled_receiver := by
  induction ws generalizing st with
  | nil => simp [sendIter, hex, hin]
  | cons w ws ih =>
    have hw : 0 ≤ w := hws w (by simp)
    have hstep := sender_step_eof st w hw hex hflag hin
    have hiter : sendIter st (w :: ws) = sendIter (thread_sender_step st w) ws := rfl
    have hflag2 : get_flag_quit (thread_sender_step st w).flag = false := by
      rw [hstep.2.1]; exact hflag
    have := ih (thread_sender_step st w)
      (fun x hx => hws x (List.mem_cons_of_mem _ hx))
      hstep.1 hflag2 hstep.2.2.1
    rw [hiter]
    refine ⟨this.1, ?_, this.2.2.1, ?_, ?_, ?_⟩
    · rw [this.2.1, hstep.2.1]
    · rw [this.2.2.2.1, hstep.2.2.2.1]
      simp [List.replicate_succ, List.append_assoc]
    · rw [this.2.2.2.2.1, hstep.2.2.2.2.1]
    · rw [this.2.2.2.2.2, hstep.2.2.2.2.2]

/-- Witness for C9: three EOF iterations send three empty frames and the
pump is still running. -/
theorem sender_eof_loops_witness :
    (sendIter ⟨0, [], [], false, 0, false⟩ [0, 0, 0]).exited = false ∧
    (sendIter ⟨0, [], [], false, 0, false⟩ [0, 0, 0]).flag = 0 ∧
    (sendIter ⟨0, [], [], false, 0, false⟩ [0, 0, 0]).input = [] ∧
    (sendIter ⟨0, [], [], false, 0, false⟩ [0, 0, 0]).sent = [] ++ List.replicate 3 [] ∧
    (sendIter ⟨0, [], [], false, 0, false⟩ [0, 0, 0]).errors = 0 ∧
    (sendIter ⟨0, [], [], false, 0, false⟩ [0, 0, 0]).canceled_receiver = false :=
  sender_eof_loops ⟨0, [], [], false, 0, false⟩ [0, 0, 0] (by decide) rfl rfl rfl

/-- Claim C10: `set_flag_quit` stores its argument unconditionally, so
calling it with `0` after the flag was set to `1` moves the observable
state back to Running — the once-Ending-never-Running invariant is not
enforced by the primitive.  It holds only because every call site in the
pump loop bodies passes `1`: each step either leaves the flag alone or
applies `set_flag_quit 1`. -/
theorem set_flag_quit_unconditional :
    get_flag_quit (set_flag_quit 0 (set_flag_quit 1 0)) = false ∧
    (∀ (st : ReceiverState) (br : Int) (f : List Nat),
      (thread_receiver_step st br f).flag = st.flag ∨
      (thread_receiver_step st br f).flag = set_flag_quit 1 st.flag) ∧
    (∀ (st : SenderState) (w : Int),
      (thread_sender_step st w).flag = st.flag ∨
      (thread_sender_step st w).flag = set_flag_quit 1 st.flag) := by
  refine ⟨by decide, ?_, ?_⟩
  · intro st br f
    unfold thread_receiver_step
    repeat' split
    all_goals first
      | (simp only []; split <;> simp [set_flag_quit])
      | simp [set_flag_quit]
  · intro st w
    unfold thread_sender_step
    repeat' split
    all_goals first
      | (simp only []; split <;> simp [set_flag_quit])
      | simp [set_flag_quit]

end L2capChat
